import Mathlib

/-!
Verification of the appix watch command (watch.go) and the frontend upload
helper (appcatalog/frontendUpload.go).

The watch command runs a single control loop (a Go select over three
channels) that owns the process-wide variable watcherState.  We embed:

* the four watcher states (the iota constants in watch.go);
* the loop body as a pure step function from state and input to the new
  state plus the effects performed in that branch (arming the 100ms
  debounce timer via time.AfterFunc, starting a push via go doPush);
* a whole-system transition relation that additionally tracks the armed
  timers, pending channel signals and in-flight pushes, to prove the
  concurrency invariants;
* doPush and the startup sequence of the watch action as the list of
  observable actions they perform (push-pipeline calls, livereload
  notifications, completion signals);
* UploadToFrontend as a function from the outcomes of its external calls
  to the (pollURI, error) pair it returns.
-/

/-- The four watcher states, the iota constants of watch.go
(waiting, initialDelay, pushing, pushingAndGotEvent). -/
inductive WState
  | waiting
  | initialDelay
  | pushing
  | pushingAndGotEvent
deriving DecidableEq, Repr

/-- The three kinds of input the control loop receives, one per channel of
the select statement.  A fileChange input records whether filepath.Rel
failed for the event path (relErr) and whether IgnoreFilePath accepted the
relative path (ignored); those are the two guard conditions of the
fileWatch case. -/
inductive LoopInput
  | fileChange (relErr ignored : Bool)
  | delayDone
  | pushDoneSig
deriving DecidableEq, Repr

/-- The effects a single iteration of the loop body can perform:
arming the one-shot debounce timer (time.AfterFunc at line 109) and
starting an asynchronous push (go doPush at lines 120 and 125). -/
structure LoopEffect where
  armTimer : Bool
  startPush : Bool
deriving DecidableEq, Repr

/-- The debounce delay passed to time.AfterFunc, in milliseconds
(100*time.Millisecond at line 109 of watch.go). -/
def debounceDelayMs : Nat := 100

/-- One iteration of the control loop of RegisterWatch (watch.go lines
84-131), as a function from the current watcherState and the received
input to the new watcherState and the effects of that branch.

fileChange case: if filepath.Rel errored the event is discarded (break at
line 96); if IgnoreFilePath accepted it the event is discarded (break at
line 103); otherwise the if/else-if chain at lines 106-114 runs.
delayDone case (initialDelayDone channel): lines 115-120.
pushDoneSig case (pushDone channel): lines 121-129. -/
def loopStep (s : WState) : LoopInput → WState × LoopEffect
  | .fileChange relErr ignored =>
      if relErr then (s, ⟨false, false⟩)
      else if ignored then (s, ⟨false, false⟩)
      else if s = .waiting then (.initialDelay, ⟨true, false⟩)
      else if s = .pushing then (.pushingAndGotEvent, ⟨false, false⟩)
      else (s, ⟨false, false⟩)
  | .delayDone => (.pushing, ⟨false, true⟩)
  | .pushDoneSig =>
      if s = .pushingAndGotEvent then (.pushing, ⟨false, true⟩)
      else (.waiting, ⟨false, false⟩)

/-- C1: on a relevant change notification (filepath.Rel succeeded and the
path is not ignored): from waiting the state becomes initialDelay and the
100ms one-shot debounce timer is armed (its expiry emits the delayDone
input, modelled below by SysEvent.timerFires feeding SysEvent.loopDelay);
from initialDelay the event is absorbed with no state change and no new
timer; from pushing the state becomes pushingAndGotEvent with no timer;
from pushingAndGotEvent the event is absorbed unchanged. -/
theorem watch_change_transitions :
    loopStep .waiting (.fileChange false false)
      = (.initialDelay, ⟨true, false⟩) ∧
    loopStep .initialDelay (.fileChange false false)
      = (.initialDelay, ⟨false, false⟩) ∧
    loopStep .pushing (.fileChange false false)
      = (.pushingAndGotEvent, ⟨false, false⟩) ∧
    loopStep .pushingAndGotEvent (.fileChange false false)
      = (.pushingAndGotEvent, ⟨false, false⟩) ∧
    debounceDelayMs = 100 := by
  decide

/-- C2: on a push-completed signal, from pushingAndGotEvent the state
becomes pushing and exactly one new push is started immediately (no timer
armed, hence no debounce delay); from every other state the state becomes
waiting and no push is started. -/
theorem watch_pushDone_transitions :
    loopStep .pushingAndGotEvent .pushDoneSig = (.pushing, ⟨false, true⟩) ∧
    loopStep .waiting .pushDoneSig = (.waiting, ⟨false, false⟩) ∧
    loopStep .initialDelay .pushDoneSig = (.waiting, ⟨false, false⟩) ∧
    loopStep .pushing .pushDoneSig = (.waiting, ⟨false, false⟩) := by
  decide

/-- Accumulator for running the control loop over a sequence of inputs:
the current watcherState plus how many debounce timers were armed and
how many pushes were started along the way. -/
structure RunAcc where
  state : WState
  timersArmed : Nat
  pushesStarted : Nat
deriving DecidableEq, Repr

/-- Apply one loop iteration to the accumulator, counting its effects. -/
def applyInput (a : RunAcc) (i : LoopInput) : RunAcc :=
  let r := loopStep a.state i
  ⟨r.1, a.timersArmed + (if r.2.armTimer then 1 else 0),
    a.pushesStarted + (if r.2.startPush then 1 else 0)⟩

/-- Run the control loop over a list of inputs in arrival order. -/
def runInputs (a : RunAcc) : List LoopInput → RunAcc
  | [] => a
  | i :: rest => runInputs (applyInput a i) rest

theorem runInputs_append (a : RunAcc) (l1 l2 : List LoopInput) :
    runInputs a (l1 ++ l2) = runInputs (runInputs a l1) l2 := by
  induction l1 generalizing a with
  | nil => rfl
  | cons i rest ih => simp [runInputs, ih]

/-- Relevant change notifications are absorbed in pushingAndGotEvent:
no state change, no timer, no push. -/
theorem runInputs_absorb_page (m t p : Nat) :
    runInputs ⟨.pushingAndGotEvent, t, p⟩
        (List.replicate m (.fileChange false false))
      = ⟨.pushingAndGotEvent, t, p⟩ := by
  induction m with
  | zero => rfl
  | succ n ih => simpa [List.replicate_succ, runInputs, applyInput, loopStep] using ih

/-- Relevant change notifications are absorbed in initialDelay:
no state change, no timer, no push. -/
theorem runInputs_absorb_delay (m t p : Nat) :
    runInputs ⟨.initialDelay, t, p⟩
        (List.replicate m (.fileChange false false))
      = ⟨.initialDelay, t, p⟩ := by
  induction m with
  | zero => rfl
  | succ n ih => simpa [List.replicate_succ, runInputs, applyInput, loopStep] using ih

/-- C3: if M ≥ 1 relevant change notifications are processed while the
state is pushing (a push in flight), no push and no timer results during
those M events and the state is pushingAndGotEvent; processing the single
push-completed signal afterwards then starts exactly one additional push
(not M).  The pending follow-up is represented solely by the
pushingAndGotEvent state: the accumulator shows no queue is kept. -/
theorem watch_midpush_coalescing (M : Nat) (h : 1 ≤ M) :
    runInputs ⟨.pushing, 0, 0⟩
        (List.replicate M (.fileChange false false))
      = ⟨.pushingAndGotEvent, 0, 0⟩ ∧
    runInputs ⟨.pushing, 0, 0⟩
        (List.replicate M (.fileChange false false) ++ [.pushDoneSig])
      = ⟨.pushing, 0, 1⟩ := by
  obtain ⟨m, rfl⟩ := Nat.exists_eq_add_of_le h
  have hrep : runInputs ⟨.pushing, 0, 0⟩
      (List.replicate (1 + m) (.fileChange false false))
      = ⟨.pushingAndGotEvent, 0, 0⟩ := by
    rw [List.replicate_add, runInputs_append]
    have h1 : runInputs ⟨.pushing, 0, 0⟩
        (List.replicate 1 (.fileChange false false))
        = ⟨.pushingAndGotEvent, 0, 0⟩ := rfl
    rw [h1]
    exact runInputs_absorb_page m 0 0
  refine ⟨hrep, ?_⟩
  rw [runInputs_append, hrep]
  rfl

/-- witness for C3 at M = 3 -/
theorem watch_midpush_coalescing_witness :
    runInputs ⟨.pushing, 0, 0⟩
        (List.replicate 3 (.fileChange false false))
      = ⟨.pushingAndGotEvent, 0, 0⟩ ∧
    runInputs ⟨.pushing, 0, 0⟩
        (List.replicate 3 (.fileChange false false) ++ [.pushDoneSig])
      = ⟨.pushing, 0, 1⟩ :=
  watch_midpush_coalescing 3 (by decide)

/-- C4: for N ≥ 1 relevant change notifications processed from waiting
(one debounce window), exactly one timer is armed (by the first one) and
no push starts during the window; a second notification does not arm a
second timer.  Only when the debounce-expired input is processed does
exactly one push start. -/
theorem watch_debounce_absorption (N : Nat) (h : 1 ≤ N) :
    runInputs ⟨.waiting, 0, 0⟩
        (List.replicate N (.fileChange false false))
      = ⟨.initialDelay, 1, 0⟩ ∧
    runInputs ⟨.waiting, 0, 0⟩
        (List.replicate N (.fileChange false false) ++ [.delayDone])
      = ⟨.pushing, 1, 1⟩ := by
  obtain ⟨m, rfl⟩ := Nat.exists_eq_add_of_le h
  have hrep : runInputs ⟨.waiting, 0, 0⟩
      (List.replicate (1 + m) (.fileChange false false))
      = ⟨.initialDelay, 1, 0⟩ := by
    rw [List.replicate_add, runInputs_append]
    have h1 : runInputs ⟨.waiting, 0, 0⟩
        (List.replicate 1 (.fileChange false false))
        = ⟨.initialDelay, 1, 0⟩ := rfl
    rw [h1]
    exact runInputs_absorb_delay m 1 0
  refine ⟨hrep, ?_⟩
  rw [runInputs_append, hrep]
  rfl

/-- witness for C4 at N = 2 -/
theorem watch_debounce_absorption_witness :
    runInputs ⟨.waiting, 0, 0⟩
        (List.replicate 2 (.fileChange false false))
      = ⟨.initialDelay, 1, 0⟩ ∧
    runInputs ⟨.waiting, 0, 0⟩
        (List.replicate 2 (.fileChange false false) ++ [.delayDone])
      = ⟨.pushing, 1, 1⟩ :=
  watch_debounce_absorption 2 (by decide)

/-- Whole-system state of one watch session: the loop-owned watcherState
plus, for each asynchronous collaborator, how many of its tokens exist:
armed time.AfterFunc timers not yet fired (timerPending), expiry signals
sent but not yet received on the initialDelayDone channel (timerFired),
doPush goroutines still executing (pushRunning), and completion signals
sent but not yet received on the pushDone channel (pushDonePend). -/
structure SysState where
  ws : WState
  timerPending : Nat
  timerFired : Nat
  pushRunning : Nat
  pushDonePend : Nat
deriving DecidableEq, Repr

/-- System state when the reactive loop starts: the initial synchronous
doPush (watch.go line 79) has already returned — it runs on the loop's
own goroutine before the for statement, so no push is in flight — and
watcherState still holds its initializer value waiting. -/
def sysInit : SysState := ⟨.waiting, 0, 0, 0, 0⟩

/-- The atomic events of the watch session: the loop processing one input
from one of its three channels, a pending timer expiring (the AfterFunc
callback sending on initialDelayDone), and a running doPush finishing
(sending on pushDone). -/
inductive SysEvent
  | deliverChange (relErr ignored : Bool)
  | timerFires
  | loopDelay
  | pushFinishes
  | loopPush
deriving DecidableEq, Repr

/-- One system transition.  Loop events apply loopStep to the
watcherState; the arm-timer effect creates a pending timer and the
start-push effect creates a running push.  timerFires, loopDelay,
pushFinishes and loopPush are enabled only when a corresponding token
exists (a timer cannot fire unless armed, a channel cannot be received
from unless sent to, a push cannot finish unless running). -/
def sysStep (s : SysState) : SysEvent → Option SysState
  | .deliverChange relErr ignored =>
      let r := loopStep s.ws (.fileChange relErr ignored)
      some ⟨r.1, s.timerPending + (if r.2.armTimer then 1 else 0),
        s.timerFired, s.pushRunning, s.pushDonePend⟩
  | .timerFires =>
      if s.timerPending = 0 then none
      else some ⟨s.ws, s.timerPending - 1, s.timerFired + 1,
        s.pushRunning, s.pushDonePend⟩
  | .loopDelay =>
      if s.timerFired = 0 then none
      else
        let r := loopStep s.ws .delayDone
        some ⟨r.1, s.timerPending, s.timerFired - 1,
          s.pushRunning + (if r.2.startPush then 1 else 0), s.pushDonePend⟩
  | .pushFinishes =>
      if s.pushRunning = 0 then none
      else some ⟨s.ws, s.timerPending, s.timerFired,
        s.pushRunning - 1, s.pushDonePend + 1⟩
  | .loopPush =>
      if s.pushDonePend = 0 then none
      else
        let r := loopStep s.ws .pushDoneSig
        some ⟨r.1, s.timerPending, s.timerFired,
          s.pushRunning + (if r.2.startPush then 1 else 0),
          s.pushDonePend - 1⟩

/-- States reachable from the start of the reactive loop. -/
inductive Reachable : SysState → Prop
  | init : Reachable sysInit
  | step {s : SysState} {e : SysEvent} {t : SysState} :
      Reachable s → sysStep s e = some t → Reachable t

/-- Number of debounce-timer tokens the state machine accounts for:
one exactly while watcherState is initialDelay. -/
def timerTokens (w : WState) : Nat := if w = .initialDelay then 1 else 0

/-- Number of push tokens the state machine accounts for: one exactly
while watcherState is pushing or pushingAndGotEvent. -/
def pushTokens (w : WState) : Nat :=
  if w = .pushing ∨ w = .pushingAndGotEvent then 1 else 0

/-- The inductive invariant of the watch session: the armed timers plus
unconsumed expiry signals equal the timer tokens of the current state,
and the running pushes plus unconsumed completion signals equal its push
tokens. -/
def SysInv (s : SysState) : Prop :=
  s.timerPending + s.timerFired = timerTokens s.ws ∧
  s.pushRunning + s.pushDonePend = pushTokens s.ws

theorem sysInv_init : SysInv sysInit := by
  constructor <;> rfl

theorem sysInv_step {s : SysState} {e : SysEvent} {t : SysState}
    (hinv : SysInv s) (h : sysStep s e = some t) : SysInv t := by
  obtain ⟨w, tp, tf, pr, pd⟩ := s
  obtain ⟨h1, h2⟩ := hinv
  simp only [SysInv, timerTokens, pushTokens] at h1 h2
  cases e with
  | deliverChange relErr ignored =>
      simp only [sysStep] at h
      obtain rfl := Option.some_inj.mp h
      cases relErr <;> cases ignored <;> cases w <;>
        simp_all [loopStep, SysInv, timerTokens, pushTokens] <;> omega
  | timerFires =>
      simp only [sysStep] at h
      split at h
      · exact Option.noConfusion h
      · obtain rfl := Option.some_inj.mp h
        cases w <;> simp_all [SysInv, timerTokens, pushTokens] <;> omega
  | loopDelay =>
      simp only [sysStep] at h
      split at h
      · exact Option.noConfusion h
      · obtain rfl := Option.some_inj.mp h
        cases w <;> simp_all [loopStep, SysInv, timerTokens, pushTokens] <;> omega
  | pushFinishes =>
      simp only [sysStep] at h
      split at h
      · exact Option.noConfusion h
      · obtain rfl := Option.some_inj.mp h
        cases w <;> simp_all [SysInv, timerTokens, pushTokens] <;> omega
  | loopPush =>
      simp only [sysStep] at h
      split at h
      · exact Option.noConfusion h
      · obtain rfl := Option.some_inj.mp h
        cases w <;> simp_all [loopStep, SysInv, timerTokens, pushTokens] <;> omega

theorem reachable_inv {s : SysState} (h : Reachable s) : SysInv s := by
  induction h with
  | init => exact sysInv_init
  | step _ hstep ih => exact sysInv_step ih hstep

/-- C5: in every reachable state of the watch session at most one push is
in flight.  The session starts the loop only after the initial synchronous
doPush has returned (sysInit has no running push), and sysStep creates a
running push only in the loopDelay event (processing a debounce expiry,
possible only from initialDelay where no push runs) and the loopPush
event (processing a completion, after the previous push finished). -/
theorem watch_single_push_in_flight (s : SysState) (h : Reachable s) :
    s.pushRunning ≤ 1 := by
  have hinv := reachable_inv h
  obtain ⟨-, h2⟩ := hinv
  unfold pushTokens at h2
  split at h2 <;> omega

/-- witness for C5 at the reachable state right after one relevant change
notification is processed from the start state -/
theorem watch_single_push_in_flight_witness :
    (⟨.initialDelay, 1, 0, 0, 0⟩ : SysState).pushRunning ≤ 1 :=
  watch_single_push_in_flight ⟨.initialDelay, 1, 0, 0, 0⟩
    (Reachable.step Reachable.init
      (show sysStep sysInit (.deliverChange false false)
        = some ⟨.initialDelay, 1, 0, 0, 0⟩ by decide))

/-- C6: in every reachable state, an unconsumed debounce-expiry signal
exists only while watcherState is initialDelay (so the loop receives the
delayDone input only in that state), and at most one timer token exists
at a time: the timer is never armed while already armed or while its
expiry signal is still pending. -/
theorem watch_timer_only_in_initialDelay (s : SysState) (h : Reachable s) :
    (0 < s.timerFired → s.ws = .initialDelay) ∧
      s.timerPending + s.timerFired ≤ 1 := by
  have hinv := reachable_inv h
  obtain ⟨h1, -⟩ := hinv
  unfold timerTokens at h1
  constructor
  · intro hf
    by_contra hw
    rw [if_neg hw] at h1
    omega
  · split at h1 <;> omega

/-- witness for C6 at the reachable state where the armed timer has fired
but its signal has not yet been processed by the loop -/
theorem watch_timer_only_in_initialDelay_witness :
    (⟨.initialDelay, 0, 1, 0, 0⟩ : SysState).ws = .initialDelay ∧
      (⟨.initialDelay, 0, 1, 0, 0⟩ : SysState).timerPending
        + (⟨.initialDelay, 0, 1, 0, 0⟩ : SysState).timerFired ≤ 1 :=
  ⟨(watch_timer_only_in_initialDelay ⟨.initialDelay, 0, 1, 0, 0⟩
      (Reachable.step
        (Reachable.step Reachable.init
          (show sysStep sysInit (.deliverChange false false)
            = some ⟨.initialDelay, 1, 0, 0, 0⟩ by decide))
        (show sysStep ⟨.initialDelay, 1, 0, 0, 0⟩ .timerFires
          = some ⟨.initialDelay, 0, 1, 0, 0⟩ by decide))).1 (by decide),
    (watch_timer_only_in_initialDelay ⟨.initialDelay, 0, 1, 0, 0⟩
      (Reachable.step
        (Reachable.step Reachable.init
          (show sysStep sysInit (.deliverChange false false)
            = some ⟨.initialDelay, 1, 0, 0, 0⟩ by decide))
        (show sysStep ⟨.initialDelay, 1, 0, 0, 0⟩ .timerFires
          = some ⟨.initialDelay, 0, 1, 0, 0⟩ by decide))).2⟩

/-- C9: a change notification for which filepath.Rel failed, or whose
relative path IgnoreFilePath matches, is discarded: watcherState is
unchanged, no timer is armed and no push is started.  In particular an
ignored notification never moves the state out of waiting. -/
theorem watch_irrelevant_event_discarded (s : WState) (relErr ignored : Bool)
    (h : relErr = true ∨ ignored = true) :
    loopStep s (.fileChange relErr ignored) = (s, ⟨false, false⟩) := by
  rcases h with h | h
  · subst h
    simp [loopStep]
  · subst h
    cases relErr <;> simp [loopStep]

/-- witness for C9: an ignored path while waiting causes no transition -/
theorem watch_irrelevant_event_discarded_witness :
    loopStep .waiting (.fileChange false true)
      = (.waiting, ⟨false, false⟩) :=
  watch_irrelevant_event_discarded .waiting false true (Or.inr rfl)

/-- The arguments of one call to the push pipeline, as passed by doPush
(watch.go line 151): push(config, appPath, !openBrowser, 180, timeout,
localFrontend, args, logger).  noBrowserArg is the third argument — true
suppresses opening the browser. -/
structure PushArgs where
  noBrowserArg : Bool
  waitSeconds : Nat
  timeoutSeconds : Int
  localFrontend : Bool
deriving DecidableEq, Repr

/-- The externally observable actions of the watch command we track:
calling the push pipeline, sending a livereload notification
(livereload.SendReload), and signalling on the pushDone channel. -/
inductive WatchAction
  | callPush (a : PushArgs)
  | sendReload
  | signalPushDone
deriving DecidableEq, Repr

/-- doPush (watch.go lines 150-160) as the sequence of actions it
performs: it always calls push with noBrowser argument !openBrowser,
ignoring the result of push (pushFails is discarded, so completion
happens regardless of success or failure); if openBrowser is false
(change-triggered pushes) it sends a reload notification; if a pushDone
channel was supplied it signals completion on it. -/
def doPushActions (openBrowser localFrontend : Bool) (timeoutSeconds : Int)
    (pushFails : Bool) (hasDoneChan : Bool) : List WatchAction :=
  [.callPush ⟨!openBrowser, 180, timeoutSeconds, localFrontend⟩]
    ++ (if !openBrowser then [.sendReload] else [])
    ++ (if hasDoneChan then [.signalPushDone] else [])

/-- The startup sequence of the watch action (watch.go lines 76-81), run
before the event loop, as a function of the parsed flag values: it calls
doPush with openBrowser hard-coded to true and no pushDone channel, then
calls livereload.SendReload unconditionally.  The parsed noBrowser flag
value is never read on this path (nor anywhere else in watch.go). -/
def startupActions (noBrowserFlag localFrontend : Bool)
    (timeoutSeconds : Int) (initialPushFails : Bool) : List WatchAction :=
  doPushActions true localFrontend timeoutSeconds initialPushFails false
    ++ [.sendReload]

/-- C7 (code bug): the watch command parses --noBrowser into the package
variable noBrowser but never reads it: with the flag set
(noBrowserFlag = true) the startup sequence is identical to the one with
the flag unset, and the initial push is still invoked with the
browser-opening third argument enabled (noBrowserArg = false).  The flag
therefore does not suppress opening a browser, contradicting its own help
text and the claim. -/
theorem watch_noBrowser_flag_ignored :
    startupActions true false 10 false = startupActions false false 10 false ∧
    WatchAction.callPush ⟨false, 180, 10, false⟩
      ∈ startupActions true false 10 false := by
  decide

/-- C8 counterexample: the claim says a reload notification is never sent
after the initial startup push, but the startup sequence of watch.go
sends one (line 81) immediately after the initial synchronous doPush
returns: concretely, with default flags the startup actions are exactly
the initial push call followed by a reload notification. -/
theorem watch_startup_reload_counterexample :
    startupActions false false 10 false
      = [.callPush ⟨false, 180, 10, false⟩, .sendReload] ∧
    (startupActions false false 10 false).count .sendReload = 1 := by
  decide

/-- C8 (amended): doPush sends a reload notification exactly when the
push is change-triggered (openBrowser = false), regardless of whether the
push pipeline succeeded or failed; the initial push itself sends none
from within doPush, but the startup sequence additionally sends exactly
one reload notification right after the initial push completes. -/
theorem watch_reload_policy (openBrowser localFrontend pushFails
    hasDoneChan nbFlag initFails : Bool) (t : Int) :
    ((doPushActions openBrowser localFrontend t pushFails
        hasDoneChan).count .sendReload
      = if openBrowser then 0 else 1) ∧
    (doPushActions true localFrontend t pushFails false).count .sendReload
      = 0 ∧
    startupActions nbFlag localFrontend t initFails
      = doPushActions true localFrontend t initFails false ++ [.sendReload] := by
  refine ⟨?_, ?_, rfl⟩
  · cases openBrowser <;>
      simp [doPushActions, List.count_cons, List.count_append, List.count_nil,
        List.count_singleton] <;>
      cases hasDoneChan <;> simp [List.count_cons, List.count_nil]
  · cases hasDoneChan <;>
      simp [doPushActions, List.count_cons, List.count_append, List.count_nil]

/-- Go map indexing with the zero value as default: m[k] returns the
stored value or default d when k is absent (or the map is nil). -/
def goMapIndex {α : Type} (m : List (String × α)) (k : String) (d : α) : α :=
  match m.find? (fun p => p.1 == k) with
  | some p => p.2
  | none => d

/-- strings.TrimSpace: the string with all leading and trailing
whitespace characters removed. -/
def goTrimSpace (s : String) : String :=
  String.mk
    (((s.data.dropWhile Char.isWhitespace).reverse.dropWhile
        Char.isWhitespace).reverse)

/-- The error values UploadToFrontend can return, one per return site of
frontendUpload.go. -/
inductive UploadError
  | createRequest
  | httpTransport
  | badStatus (code : Nat)
  | readBody
  | unmarshal
  | invalidResponse
deriving DecidableEq, Repr

/-- The outcomes of the external calls UploadToFrontend makes, in the
order it makes them: whether CreateMultiFileUploadRequest errors, whether
client.Do errors and otherwise which status code the response has,
whether ioutil.ReadAll errors, and whether json.Unmarshal errors and
otherwise which map[string]map[string]string it produces. -/
structure UploadEnv where
  createRequestFails : Bool
  httpCallFails : Bool
  statusCode : Nat
  readBodyFails : Bool
  unmarshalResult : Option (List (String × List (String × String)))

/-- UploadToFrontend (frontendUpload.go lines 13-84) as a function from
the outcomes of its external calls to the (pollURI, err) pair it
returns, with err modelled as Option UploadError (none = nil).  Each
early return site returns ("", some e); the success path returns the
progress link from responseObject with a nil error, guarded by the
len(strings.TrimSpace(progressUri)) == 0 check (equivalent to the
trimmed string being empty). -/
def UploadToFrontend (env : UploadEnv) : String × Option UploadError :=
  if env.createRequestFails then ("", some .createRequest)
  else if env.httpCallFails then ("", some .httpTransport)
  else if env.statusCode ≠ 200 then ("", some (.badStatus env.statusCode))
  else if env.readBodyFails then ("", some .readBody)
  else
    match env.unmarshalResult with
    | none => ("", some .unmarshal)
    | some responseObject =>
        let progressUri :=
          goMapIndex (goMapIndex responseObject "links" []) "progress" ""
        if goTrimSpace progressUri = "" then
          ("", some .invalidResponse)
        else (progressUri, none)

theorem goTrimSpace_empty : goTrimSpace "" = "" := by decide

/-- C10: UploadToFrontend returns a nil error exactly when the returned
pollURI is non-empty after trimming whitespace, and on every failure
path (request creation, transport, non-200 status, body read, unmarshal,
or missing/blank links.progress) the returned pollURI is the empty
string alongside the non-nil error. -/
theorem uploadToFrontend_error_iff_blank (env : UploadEnv) :
    ((UploadToFrontend env).2 = none
      ↔ goTrimSpace (UploadToFrontend env).1 ≠ "") ∧
    ((UploadToFrontend env).1 = "" ∨ (UploadToFrontend env).2 = none) := by
  obtain ⟨cr, hc, sc, rb, um⟩ := env
  unfold UploadToFrontend
  cases cr
  · cases hc
    · by_cases hsc : sc ≠ 200
      · simp [hsc, goTrimSpace_empty]
      · cases rb
        · cases um with
          | none => simp [hsc, goTrimSpace_empty]
          | some obj =>
              by_cases hblank :
                  goTrimSpace (goMapIndex (goMapIndex obj "links" []) "progress" "") = ""
              · simp [hsc, hblank, goTrimSpace_empty]
              · simp [hsc, hblank]
        · simp [hsc, goTrimSpace_empty]
    · simp [goTrimSpace_empty]
  · simp [goTrimSpace_empty]

/-- witness for C10 on two concrete runs: a failing request creation and
a successful run whose response holds a valid links.progress URI -/
theorem uploadToFrontend_error_iff_blank_witness :
    ((UploadToFrontend ⟨true, false, 200, false, none⟩).2 = none
      ↔ goTrimSpace (UploadToFrontend ⟨true, false, 200, false, none⟩).1 ≠ "") ∧
    ((UploadToFrontend ⟨true, false, 200, false, none⟩).1 = ""
      ∨ (UploadToFrontend ⟨true, false, 200, false, none⟩).2 = none) :=
  uploadToFrontend_error_iff_blank ⟨true, false, 200, false, none⟩
